import Mathlib

/-!
Verification of the MCP connection/transport management layer of oapilot.

The Python sources embedded here:
  * backend/app/core/mcp_client.py        (MCPClient, MCPManager)
  * backend/app/core/awsq_mcp_adapter.py  (AWSQMCPServerConfig, AWSQConfigLoader,
                                           STDIOBridge, AWSQMCPManager)

JSON values are modelled by the inductive `Json`; Python dictionaries coming
from parsed JSON are association lists in insertion order (Python 3.7+ dicts
preserve insertion order and, being parsed JSON, have unique keys).  Python
dynamic-typing failures (`TypeError` on `"k" in v` for non-containers,
`AttributeError` on `.get` of a non-dict, subscripting a non-dict) are modelled
by `Except String`: an `Except.error` marks a point where the Python code
raises.  aiohttp / asyncio I/O is modelled by oracles: a `Transport` maps each
JSON-RPC request issued by a client to its outcome, and a bridge subprocess is
a function from the written stdin line (plus the timeout bound) to what the
bounded readline observes.
-/

/-- A JSON value (Python object produced by `json.loads` / `response.json()`).
Numbers are modelled as integers, which covers every numeric literal the
embedded code manipulates. -/
inductive Json where
  | null
  | bool (b : Bool)
  | num (n : Int)
  | str (s : String)
  | arr (elems : List Json)
  | obj (fields : List (String × Json))

namespace Json

/-- Python truthiness of a JSON value: `None`, `False`, `0`, `""`, `[]`, `{}`
are falsy, everything else truthy. -/
def truthy : Json → Bool
  | null => false
  | bool b => b
  | num n => n != 0
  | str s => s != ""
  | arr xs => !xs.isEmpty
  | obj fs => !fs.isEmpty

/-- Field lookup on an object; `none` for a missing key or a non-object. -/
def get? : Json → String → Option Json
  | obj fs, k => fs.lookup k
  | _, _ => none

/-- Is this value a JSON object (Python dict)? -/
def isObj : Json → Bool
  | obj _ => true
  | _ => false

/-- Python `v == s` for a string literal `s`: true exactly when `v` is the
equal string (no other JSON value compares equal to a `str`). -/
def eqStr (v : Json) (s : String) : Bool :=
  match v with
  | str t => t == s
  | _ => false

/-- Membership of the string `k` in a JSON array, element-wise Python `==`. -/
def arrContainsStr (k : String) : List Json → Bool
  | [] => false
  | x :: rest => x.eqStr k || arrContainsStr k rest

/-- Does the first character list start the second one? -/
def charsStart : List Char → List Char → Bool
  | [], _ => true
  | _ :: _, [] => false
  | a :: as, b :: bs => a == b && charsStart as bs

/-- Does the first character list occur contiguously inside the second? -/
def charsContain (p : List Char) : List Char → Bool
  | [] => charsStart p []
  | c :: rest => charsStart p (c :: rest) || charsContain p rest

/-- Python `k in v`.  Works on dicts (key test), lists (membership) and
strings (substring test); raises `TypeError` on the other types. -/
def pyIn (k : String) : Json → Except String Bool
  | obj fs => .ok (fs.lookup k).isSome
  | arr xs => .ok (arrContainsStr k xs)
  | str s => .ok (charsContain k.data s.data)
  | _ => .error "TypeError: argument not iterable"

/-- Python `v and (k in v)` as it appears in `if response and "result" in
response`: short-circuits on a falsy value, otherwise evaluates `k in v`. -/
def truthyAndIn (k : String) (v : Json) : Except String Bool :=
  if v.truthy then v.pyIn k else .ok false

/-- Python `v[k]` for a string key: succeeds only on dicts (missing key is
`KeyError`); every other type raises `TypeError`. -/
def pySubscript (v : Json) (k : String) : Except String Json :=
  match v with
  | obj fs =>
    match fs.lookup k with
    | some x => .ok x
    | none => .error "KeyError"
  | _ => .error "TypeError: not subscriptable"

/-- Python `v.get(k, d)`: defined on dicts, raises `AttributeError` on every
other type. -/
def pyGet (v : Json) (k : String) (d : Json) : Except String Json :=
  match v with
  | obj fs =>
    match fs.lookup k with
    | some x => .ok x
    | none => .ok d
  | _ => .error "AttributeError: no attribute get"

/-- Python `v.get(k)` (default `None`). -/
def pyGetN (v : Json) (k : String) : Except String Json :=
  v.pyGet k null

end Json

/-! ## MCPClient (mcp_client.py) -/

/-- Outcome of one HTTP POST performed by `MCPClient._send_request`:
status-200 with a JSON body, a non-200 status, `asyncio.TimeoutError`, or any
other exception while posting / decoding the body. -/
inductive SendOutcome where
  | ok (body : Json)
  | badStatus (code : Nat)
  | timeout
  | netError (msg : String)

/-- A JSON-RPC request as framed by `_send_request`: `{"jsonrpc": "2.0",
"id": id, "method": method}` plus `params` when present. -/
structure RpcRequest where
  id : Nat
  method : String
  params : Option Json

/-- Transport oracle: what the server at the client's endpoint answers to each
request the client sends. -/
def Transport := RpcRequest → SendOutcome

/-- The mutable state of one `MCPClient` instance.  `hasSession` stands for
`self.session is not None`. -/
structure MCPClient where
  server_id : String
  endpoint : String
  name : String
  hasSession : Bool
  capabilities : Json
  is_connected : Bool
  request_id : Nat

namespace MCPClient

/-- `MCPClient.__init__`: `self.name = name or server_id`, no session yet,
empty capabilities, not connected, request counter at 0. -/
def init (server_id endpoint name : String) : MCPClient :=
  { server_id := server_id, endpoint := endpoint,
    name := if name = "" then server_id else name,
    hasSession := false, capabilities := Json.obj [],
    is_connected := false, request_id := 0 }

/-- The response handling of `_send_request`'s `try` block: a status-200
response is decoded and returned; a non-200 status, a timeout or a raised
exception is caught and becomes `None`. -/
def recv (c : MCPClient) : SendOutcome → MCPClient × Option Json
  | SendOutcome.ok body => (c, some body)
  | _ => (c, none)

/-- `_send_request`: bumps the id counter, frames the request (an empty or
falsy `params` dict is omitted, per `if params:`), posts it over the session
and handles the response with `recv`; when `self.session` is still `None`
the post raises `AttributeError`, equally caught, returning `None`. -/
def sendRequest (t : Transport) (c : MCPClient) (method : String)
    (params : Option Json) : MCPClient × Option Json :=
  let c := { c with request_id := c.request_id + 1 }
  let sentParams : Option Json :=
    match params with
    | some p => if p.truthy then some p else none
    | none => none
  if c.hasSession then
    recv c (t ⟨c.request_id, method, sentParams⟩)
  else
    (c, none)

/-- The `params` of the `initialize` call in `connect`. -/
def clientInfoParams : Json :=
  Json.obj [("clientInfo",
    Json.obj [("name", Json.str "OAPilot"), ("version", Json.str "1.0.0")])]

/-- `connect`: ensures a session exists, sends `initialize`, and on a truthy
response containing `"result"` stores `response["result"].get("capabilities",
{})` and sets `is_connected = True`.  Each `TypeError` / `AttributeError` the
dynamic lookups can raise lands in the `except` clause, which sets
`is_connected = False`; a `None` or resultless response just returns `False`
without touching `is_connected`. -/
def connect (t : Transport) (c : MCPClient) : MCPClient × Bool :=
  let c := if c.hasSession then c else { c with hasSession := true }
  let (c, response) := sendRequest t c "initialize" (some clientInfoParams)
  match response with
  | none => (c, false)
  | some r =>
    match Json.truthyAndIn "result" r with
    | .error _ => ({ c with is_connected := false }, false)
    | .ok false => (c, false)
    | .ok true =>
      match r.pySubscript "result" with
      | .error _ => ({ c with is_connected := false }, false)
      | .ok rv =>
        match rv.pyGet "capabilities" (Json.obj []) with
        | .error _ => ({ c with is_connected := false }, false)
        | .ok caps => ({ c with capabilities := caps, is_connected := true }, true)

/-- `disconnect`: closes and drops the session, clears `is_connected`. -/
def disconnect (c : MCPClient) : MCPClient :=
  { c with hasSession := false, is_connected := false }

/-- `list_resources`: reconnects lazily, sends `resources/list`, and returns
`response["result"].get("resources", [])` when a truthy response contains
`"result"`, `[]` otherwise.  The dynamic lookups are *not* inside a
`try`, so their `TypeError` / `AttributeError` propagates (`Except.error`). -/
def list_resources (t : Transport) (c : MCPClient) : MCPClient × Except String Json :=
  let c := if c.is_connected then c else (connect t c).1
  let (c, response) := sendRequest t c "resources/list" none
  match response with
  | none => (c, .ok (Json.arr []))
  | some r =>
    match Json.truthyAndIn "result" r with
    | .error e => (c, .error e)
    | .ok false => (c, .ok (Json.arr []))
    | .ok true =>
      match r.pySubscript "result" with
      | .error e => (c, .error e)
      | .ok rv =>
        match rv.pyGet "resources" (Json.arr []) with
        | .error e => (c, .error e)
        | .ok v => (c, .ok v)

/-- `call_tool`: reconnects lazily, sends `tools/call` with
`{"name": tool_name, "arguments": arguments or {}}`, and returns
`response["result"]` when a truthy response contains `"result"`, `None`
otherwise; the uncaught dynamic lookups may raise (`Except.error`). -/
def call_tool (t : Transport) (c : MCPClient) (tool_name : String)
    (arguments : Json) : MCPClient × Except String (Option Json) :=
  let c := if c.is_connected then c else (connect t c).1
  let args := if arguments.truthy then arguments else Json.obj []
  let (c, response) := sendRequest t c "tools/call"
      (some (Json.obj [("name", Json.str tool_name), ("arguments", args)]))
  match response with
  | none => (c, .ok none)
  | some r =>
    match Json.truthyAndIn "result" r with
    | .error e => (c, .error e)
    | .ok false => (c, .ok none)
    | .ok true =>
      match r.pySubscript "result" with
      | .error e => (c, .error e)
      | .ok rv => (c, .ok (some rv))

end MCPClient

/-! ## MCPManager (mcp_client.py) -/

/-- The result dict of `MCPManager.execute_tool`: `{"success": True, "result":
result}` or `{"success": False, "error": error}`. -/
inductive ExecResult where
  | success (result : Option Json)
  | failure (error : String)

/-- The state of an `MCPManager`: its `clients` dict, an insertion-ordered
association list with unique keys.  `self._lock` serializes `add_server` /
`remove_server`, so a concurrent execution of those operations is modelled as
a sequence of atomic calls. -/
structure MCPManager where
  clients : List (String × MCPClient)

namespace MCPManager

/-- The manager as freshly constructed: no clients. -/
def init : MCPManager := { clients := [] }

/-- In-place value update for the `clients` dict (Python assignment to an
existing key keeps its position). -/
def updateClient : List (String × MCPClient) → String → MCPClient → List (String × MCPClient)
  | [], _, _ => []
  | (sid, c) :: rest, id, c' =>
    if sid == id then (sid, c') :: rest else (sid, c) :: updateClient rest id c'

/-- `add_server` (body of the `async with self._lock` block): rejects if the
id is already present or `len(self.clients) >= settings.MAX_MCP_CONNECTIONS`;
otherwise constructs a client, attempts `connect()`, and registers it only on
success.  `t` is the transport oracle behind `endpoint`; `maxConn` is
`settings.MAX_MCP_CONNECTIONS` (the shipped default is 3). -/
def add_server (t : Transport) (maxConn : Nat) (m : MCPManager)
    (server_id endpoint name : String) : MCPManager × Bool :=
  if (m.clients.lookup server_id).isSome then
    (m, false)
  else if maxConn ≤ m.clients.length then
    (m, false)
  else
    let c := MCPClient.init server_id endpoint name
    let (c, ok) := MCPClient.connect t c
    if ok then ({ clients := m.clients ++ [(server_id, c)] }, true)
    else (m, false)

/-- The loop body of `get_all_resources`: walks the `clients` dict, querying
`list_resources` on every client whose `is_connected` flag is set and storing
the result under its id; a raised exception aborts the loop and propagates. -/
def getAllResourcesAux (t : String → Transport) :
    List (String × MCPClient) → List (String × MCPClient) × Except String (List (String × Json))
  | [] => ([], .ok [])
  | (sid, c) :: rest =>
    if c.is_connected then
      match MCPClient.list_resources (t sid) c with
      | (c', .ok v) =>
        match getAllResourcesAux t rest with
        | (rest', .ok res) => ((sid, c') :: rest', .ok ((sid, v) :: res))
        | (rest', .error e) => ((sid, c') :: rest', .error e)
      | (c', .error e) => ((sid, c') :: rest, .error e)
    else
      match getAllResourcesAux t rest with
      | (rest', r) => ((sid, c) :: rest', r)

/-- `get_all_resources`: the aggregated per-server resource map.  `t` gives
the transport oracle for each server id. -/
def get_all_resources (t : String → Transport) (m : MCPManager) :
    MCPManager × Except String (List (String × Json)) :=
  let (cs, r) := getAllResourcesAux t m.clients
  ({ clients := cs }, r)

/-- `execute_tool`: unknown id answers `{"success": False, "error": "Server
not found"}`; otherwise reconnect if needed, run `call_tool` inside `try`, and
map a raised exception to `{"success": False, "error": str(e)}`. -/
def execute_tool (t : Transport) (m : MCPManager) (server_id tool_name : String)
    (arguments : Json) : MCPManager × ExecResult :=
  match m.clients.lookup server_id with
  | none => (m, .failure "Server not found")
  | some client =>
    let client := if client.is_connected then client else (MCPClient.connect t client).1
    let (client, r) := MCPClient.call_tool t client tool_name arguments
    let m := { m with clients := updateClient m.clients server_id client }
    match r with
    | .ok result => (m, .success result)
    | .error e => (m, .failure e)

end MCPManager

/-! ## AWSQ configuration (awsq_mcp_adapter.py) -/

/-- MCP server transport types supported by AWS Q. -/
inductive MCPTransportType where
  | stdio
  | http
deriving DecidableEq

/-- `AWSQMCPServerConfig`: the dataclass.  The dataclass performs no
validation, so every field other than `name` and `transport_type` holds
whatever JSON value (or `None`) `config.get` produced. -/
structure AWSQMCPServerConfig where
  name : String
  transport_type : MCPTransportType
  command : Json
  args : Json
  env : Json
  timeout : Json
  url : Json
  headers : Json
  oauth_client_id : Json
  oauth_client_secret : Json
  oauth_redirect_uri : Json

/-- `fields.get(k, d)` on a dict already known to be one. -/
def lookupD (fs : List (String × Json)) (k : String) (d : Json) : Json :=
  match fs.lookup k with
  | some v => v
  | none => d

/-- `AWSQMCPServerConfig.from_dict`: on a dict, builds the dataclass —
transport is HTTP iff `config.get("type") == "http"`, every other entry
defaults to STDIO; on any non-dict entry value the first `config.get` raises
`AttributeError`. -/
def AWSQMCPServerConfig.from_dict (name : String) (config : Json) :
    Except String AWSQMCPServerConfig :=
  match config with
  | Json.obj fs =>
    .ok { name := name,
          transport_type :=
            if (lookupD fs "type" Json.null).eqStr "http" then .http else .stdio,
          command := lookupD fs "command" Json.null,
          args := lookupD fs "args" (Json.arr []),
          env := lookupD fs "env" (Json.obj []),
          timeout := lookupD fs "timeout" (Json.num 30000),
          url := lookupD fs "url" Json.null,
          headers := lookupD fs "headers" (Json.obj []),
          oauth_client_id := lookupD fs "oauthClientId" Json.null,
          oauth_client_secret := lookupD fs "oauthClientSecret" Json.null,
          oauth_redirect_uri := lookupD fs "oauthRedirectUri" Json.null }
  | _ => .error "AttributeError: no attribute get"

/-- Python dict insertion `d[k] = v`: overwrites in place if the key exists,
appends otherwise. -/
def pyDictInsert {α : Type} : List (String × α) → String → α → List (String × α)
  | [], k, v => [(k, v)]
  | (k', v') :: rest, k, v =>
    if k' == k then (k', v) :: rest else (k', v') :: pyDictInsert rest k v

namespace AWSQConfigLoader

/-- The `for server_name, server_config in config["mcpServers"].items()` loop
of `extract_mcp_servers`: an entry whose `from_dict` raises is skipped
individually (logged), the siblings are kept. -/
def extractLoop : List (String × Json) → List (String × AWSQMCPServerConfig) →
    List (String × AWSQMCPServerConfig)
  | [], acc => acc
  | (server_name, server_config) :: rest, acc =>
    match AWSQMCPServerConfig.from_dict server_name server_config with
    | .ok d => extractLoop rest (pyDictInsert acc server_name d)
    | .error _ => extractLoop rest acc

/-- `extract_mcp_servers`: reads the nested `mcpServers` object and collects
the entries that parse.  The membership test, the subscript and `.items()`
are outside any `try`, so on a non-dict they raise (`Except.error`). -/
def extract_mcp_servers (config : Json) : Except String (List (String × AWSQMCPServerConfig)) :=
  match Json.pyIn "mcpServers" config with
  | .error e => .error e
  | .ok false => .ok []
  | .ok true =>
    match config.pySubscript "mcpServers" with
    | .error e => .error e
    | .ok v =>
      match v with
      | Json.obj entries => .ok (extractLoop entries [])
      | _ => .error "AttributeError: no attribute items"

end AWSQConfigLoader

/-! ## StdioBridge (class STDIOBridge, awsq_mcp_adapter.py) -/

/-- A spawned subprocess handle: its pid and whether the process is still
running.  `terminate()` on a process that has already completed is a no-op
(`subprocess.Popen.send_signal`), and `wait()` on a completed process returns
immediately. -/
structure ProcState where
  pid : Nat
  alive : Bool
deriving DecidableEq

/-- The mutable state of one `STDIOBridge` instance.  `bridge_server = some
b` means an `AppRunner` is recorded, with `b` true while its site is still
serving (`runner.cleanup()` on an already-cleaned runner is a no-op). -/
structure StdioBridge where
  process : Option ProcState
  bridge_port : Option Nat
  bridge_server : Option Bool
deriving DecidableEq

namespace StdioBridge

/-- `STDIOBridge.__init__`: process, port and server all `None`. -/
def init : StdioBridge :=
  { process := none, bridge_port := none, bridge_server := none }

/-- Environment oracle for one `start()` run: the outcome of
`asyncio.create_subprocess_exec` (a pid, or the exception it raises), the
ephemeral port picked by the socket bind, and the outcome of binding the
aiohttp listener on that port. -/
structure StartEnv where
  spawn : Except String Nat
  port : Nat
  listen : Nat → Except String Unit

/-- `start()`: spawn the subprocess, pick a port, bind the HTTP listener,
return the bridge URL.  The `except` clause only logs and re-raises: it does
not terminate an already spawned process and does not reset any of the fields
assigned before the failure point. -/
def start (env : StartEnv) (b : StdioBridge) : StdioBridge × Except String String :=
  match env.spawn with
  | .error e => (b, .error e)
  | .ok pid =>
    let b := { b with process := some { pid := pid, alive := true } }
    let b := { b with bridge_port := some env.port }
    match env.listen env.port with
    | .error e => (b, .error e)
    | .ok _ =>
      ({ b with bridge_server := some true },
       .ok ("http://localhost:" ++ toString env.port))

/-- `stop()`: `terminate()` + `wait()` on the process when one was spawned
(a second call hits an already-completed process, where both are no-ops),
then `cleanup()` on the runner when one was recorded. -/
def stop (b : StdioBridge) : StdioBridge :=
  let b :=
    match b.process with
    | some p => { b with process := some { p with alive := false } }
    | none => b
  match b.bridge_server with
  | some _ => { b with bridge_server := some false }
  | none => b

/-- What the bounded `readline` on the subprocess stdout observes after the
request line was written: one line (whose `json.loads` may fail), no line
within the timeout bound, or an exception from the pipe I/O itself (including
the `AttributeError` when `self.process` is `None`). -/
inductive StdoutOutcome where
  | line (content : Except String Json)
  | timeout
  | ioFailure (msg : String)

/-- An HTTP response produced by the bridge handler. -/
structure HttpResponse where
  status : Nat
  body : Json

/-- The JSON-RPC error body the handler produces:
`{"error": {"code": code, "message": message}}`. -/
def errorBody (code : Int) (message : String) : Json :=
  Json.obj [("error", Json.obj [("code", Json.num code), ("message", Json.str message)])]

/-- `self.config.timeout / 1000.0`: millisecond-to-second conversion; a
non-numeric `timeout` (e.g. an explicit JSON `null`) makes the division
raise `TypeError`. -/
def timeoutSeconds (timeout : Json) : Except String Rat :=
  match timeout with
  | Json.num n => .ok ((n : Rat) / 1000)
  | _ => .error "TypeError: unsupported operand"

/-- `_handle_request`: parse the body, write it as one stdin line, read one
stdout line bounded by the configured timeout, and answer with the parsed
line.  `asyncio.TimeoutError` answers 504 with code `-32000`; every other
failure answers 500 with code `-32603`; the handler never touches the
process or listener state.  `proc` is the subprocess oracle, a function of
the written request line and the timeout bound (in Python the division
happens after the write; the order is unobservable for a pure oracle). -/
def handle_request (b : StdioBridge) (cfg : AWSQMCPServerConfig)
    (body : Except String Json) (proc : Json → Rat → StdoutOutcome) :
    StdioBridge × HttpResponse :=
  match body with
  | .error e => (b, { status := 500, body := errorBody (-32603) e })
  | .ok data =>
    match timeoutSeconds cfg.timeout with
    | .error e => (b, { status := 500, body := errorBody (-32603) e })
    | .ok secs =>
      match proc data secs with
      | .timeout => (b, { status := 504, body := errorBody (-32000) "Request timeout" })
      | .ioFailure e => (b, { status := 500, body := errorBody (-32603) e })
      | .line (.error e) => (b, { status := 500, body := errorBody (-32603) e })
      | .line (.ok response) => (b, { status := 200, body := response })

end StdioBridge

/-! ## Scenario fixtures -/

/-- A transport whose every response is status 200 with body `{"result": {}}`
— a stub server that always completes the handshake. -/
def alwaysOkTransport : Transport :=
  fun _ => SendOutcome.ok (Json.obj [("result", Json.obj [])])

/-- A transport on which every request fails at the network level. -/
def failingTransport : Transport :=
  fun _ => SendOutcome.netError "connection refused"

/-- Run a batch of `add_server` calls in the given order.  The manager's
`self._lock` makes each call atomic, so a concurrent execution of the batch
is exactly one of its permutations. -/
def addSequence (t : Transport) (maxConn : Nat) :
    MCPManager → List String → MCPManager × List Bool
  | m, [] => (m, [])
  | m, id :: rest =>
    let step := MCPManager.add_server t maxConn m id ("http://srv/" ++ id) id
    let rec' := addSequence t maxConn step.1 rest
    (rec'.1, step.2 :: rec'.2)

/-- The five distinct server ids of the C1 scenario. -/
def fiveIds : List String := ["s1", "s2", "s3", "s4", "s5"]

/-- A client in the `Connected` state (a successful handshake behind it). -/
def connectedClient : MCPClient :=
  { server_id := "s1", endpoint := "http://srv/s1", name := "s1",
    hasSession := true, capabilities := Json.obj [],
    is_connected := true, request_id := 2 }

/-- The configuration the bridge scenarios run under: a STDIO entry with the
default 30000 ms timeout. -/
def echoServerCfg : AWSQMCPServerConfig :=
  { name := "echo", transport_type := .stdio,
    command := Json.str "echo-server", args := Json.arr [], env := Json.obj [],
    timeout := Json.num 30000, url := Json.null, headers := Json.obj [],
    oauth_client_id := Json.null, oauth_client_secret := Json.null,
    oauth_redirect_uri := Json.null }

/-- The echo subprocess of the round-trip scenario: answers each request
line with the same id and with `result` set to the request's `params`. -/
def echoProc : Json → Rat → StdioBridge.StdoutOutcome := fun j _ =>
  .line (.ok (Json.obj [("jsonrpc", Json.str "2.0"),
                        ("id", (j.get? "id").getD Json.null),
                        ("result", (j.get? "params").getD Json.null)]))

/-- The concrete request of the round-trip scenario. -/
def c5Request : Json :=
  Json.obj [("jsonrpc", Json.str "2.0"), ("id", Json.num 1),
            ("method", Json.str "x"), ("params", Json.obj [("a", Json.num 1)])]

/-- The response the round-trip scenario expects. -/
def c5Response : Json :=
  Json.obj [("jsonrpc", Json.str "2.0"), ("id", Json.num 1),
            ("result", Json.obj [("a", Json.num 1)])]

/-- An environment where the subprocess spawns (pid 7) and the listener bind
then fails. -/
def spawnThenBindFailEnv : StdioBridge.StartEnv :=
  { spawn := .ok 7, port := 4321, listen := fun _ => .error "bind failed" }

/-- An environment where the subprocess spawn itself fails. -/
def spawnFailEnv : StdioBridge.StartEnv :=
  { spawn := .error "spawn failed", port := 0, listen := fun _ => .ok () }

/-- The manager of the single-failing-server scenarios: one client, marked
connected. -/
def c6Manager : MCPManager := { clients := [("s1", connectedClient)] }

/-- Transport-level failure of one request: non-200 status, timeout, or a
raised exception — every outcome except a decoded 200 response. -/
def transportFails : SendOutcome → Bool
  | .ok _ => false
  | _ => true

/-- The request outcomes the client code swallows into "no result": a
transport-level failure, a falsy response body, or a response dict without a
`"result"` key. -/
def failsSoftly : SendOutcome → Bool
  | .ok r => !r.truthy || (r.isObj && !(r.get? "result").isSome)
  | _ => true

/-- The entry produced by `from_dict` when it parses, `none` when the entry
is skipped. -/
def wellFormedEntry (p : String × Json) : Option (String × AWSQMCPServerConfig) :=
  match AWSQMCPServerConfig.from_dict p.1 p.2 with
  | .ok d => some (p.1, d)
  | .error _ => none

/-- Did this call return normally (rather than raise)? -/
def exceptOk {ε α : Type} : Except ε α → Bool
  | .ok _ => true
  | .error _ => false

/-- A `mcpServers` object with one STDIO entry, one malformed (non-dict)
entry, and one HTTP entry. -/
def c8Entries : List (String × Json) :=
  [("good", Json.obj [("command", Json.str "run-tool")]),
   ("bad", Json.str "oops"),
   ("web", Json.obj [("type", Json.str "http"), ("url", Json.str "http://u")])]

/-- An agent configuration file carrying `c8Entries`. -/
def c8Config : List (String × Json) :=
  [("name", Json.str "agent"), ("mcpServers", Json.obj c8Entries)]

/-! ## Sanity checks -/

example : (Json.obj [("result", Json.obj [])]).truthy = true := rfl

example : (Json.obj [("a", Json.num 1)]).get? "a" = some (Json.num 1) := rfl

example : Json.truthyAndIn "result" (Json.obj []) = .ok false := rfl

example : Json.truthyAndIn "result" (Json.num 5) = .error "TypeError: argument not iterable" := rfl

/-! ## Claim C2 -/

/-- Claim C2: for every server id absent from the manager's connection map,
`execute_tool` returns exactly `{"success": False, "error": "Server not
found"}`, leaves the manager unchanged, and (the model being a total
function) raises nothing to the caller. -/
theorem C2_execute_tool_unknown_server (t : Transport) (m : MCPManager)
    (server_id tool_name : String) (args : Json)
    (h : m.clients.lookup server_id = none) :
    MCPManager.execute_tool t m server_id tool_name args =
      (m, ExecResult.failure "Server not found") := by
  unfold MCPManager.execute_tool
  rw [h]

/-- Witness for C2 at a concrete manager with no servers. -/
theorem C2_witness :
    MCPManager.execute_tool (fun _ => SendOutcome.timeout) MCPManager.init
      "missing" "toolA" (Json.obj []) =
      (MCPManager.init, ExecResult.failure "Server not found") :=
  C2_execute_tool_unknown_server _ _ _ _ _ rfl

/-! ## Claim C9 -/

/-- Claim C9: `stop()` is idempotent — a second `stop`, or `stop` on a
never-started bridge, is a no-op rather than an error — and after any `stop`
the subprocess (if one was spawned) is terminated and awaited and the HTTP
listener (if one was bound) is torn down. -/
theorem C9_stop_idempotent (b : StdioBridge) :
    StdioBridge.stop (StdioBridge.stop b) = StdioBridge.stop b ∧
    ((StdioBridge.stop b).process.all fun p => !p.alive) = true ∧
    ((StdioBridge.stop b).bridge_server.all fun s => !s) = true ∧
    StdioBridge.stop StdioBridge.init = StdioBridge.init := by
  obtain ⟨p, port, s⟩ := b
  refine ⟨?_, ?_, ?_, rfl⟩ <;> cases p <;> cases s <;> rfl

/-! ## Claim C3 -/

/-- Claim C3 counterexample: with the subprocess spawned (pid 7) and the
listener bind then failing, `start()` does propagate the error, but the
bridge retains the spawned process, still alive — a failed start does leave
a live process, contradicting the claimed atomicity. -/
theorem C3_counterexample :
    (StdioBridge.start spawnThenBindFailEnv StdioBridge.init).2 = .error "bind failed" ∧
    (StdioBridge.start spawnThenBindFailEnv StdioBridge.init).1.process =
      some { pid := 7, alive := true } :=
  ⟨rfl, rfl⟩

/-- Claim C3 (amended): whenever `start()` fails the error propagates to the
caller, but nothing is cleaned up: a spawn failure leaves the state exactly
as it was, and a listener-bind failure after a successful spawn leaves the
spawned process alive and recorded (with the chosen port) in the bridge. -/
theorem C3_start_failure (env : StdioBridge.StartEnv) (b0 : StdioBridge) :
    (∀ e, env.spawn = .error e → StdioBridge.start env b0 = (b0, .error e)) ∧
    (∀ pid e, env.spawn = .ok pid → env.listen env.port = .error e →
      StdioBridge.start env b0 =
        ({ b0 with process := some { pid := pid, alive := true },
                   bridge_port := some env.port }, .error e)) := by
  constructor
  · intro e he
    unfold StdioBridge.start
    rw [he]
  · intro pid e hs hl
    unfold StdioBridge.start
    rw [hs]
    dsimp only
    rw [hl]

/-- Witness for C3 (amended) at a concrete environment whose spawn fails. -/
theorem C3_witness :
    StdioBridge.start spawnFailEnv StdioBridge.init =
      (StdioBridge.init, .error "spawn failed") :=
  (C3_start_failure spawnFailEnv StdioBridge.init).1 "spawn failed" rfl

/-! ## Claim C4 -/

/-- Claim C4: with the configured `timeout_ms` converted to seconds as the
readline bound, a request on which the subprocess writes no stdout line in
time is answered 504 with error code `-32000` and message "Request timeout";
every other failure (pipe I/O error, a stdout line that is not JSON, an
unparseable request body) is answered 500 with error code `-32603`; and in
every case the handler returns a response without raising and without
touching the bridge state (no restart of the subprocess). -/
theorem C4_handler_timeout_and_errors (b : StdioBridge) (cfg : AWSQMCPServerConfig)
    (data : Json) (proc : Json → Rat → StdioBridge.StdoutOutcome) (ms : Int) (e : String) :
    (cfg.timeout = Json.num ms → proc data ((ms : Rat) / 1000) = .timeout →
      StdioBridge.handle_request b cfg (.ok data) proc =
        (b, { status := 504, body := StdioBridge.errorBody (-32000) "Request timeout" })) ∧
    (cfg.timeout = Json.num ms → proc data ((ms : Rat) / 1000) = .ioFailure e →
      StdioBridge.handle_request b cfg (.ok data) proc =
        (b, { status := 500, body := StdioBridge.errorBody (-32603) e })) ∧
    (cfg.timeout = Json.num ms → proc data ((ms : Rat) / 1000) = .line (.error e) →
      StdioBridge.handle_request b cfg (.ok data) proc =
        (b, { status := 500, body := StdioBridge.errorBody (-32603) e })) ∧
    (StdioBridge.handle_request b cfg (.error e) proc =
      (b, { status := 500, body := StdioBridge.errorBody (-32603) e })) ∧
    (∀ body, (StdioBridge.handle_request b cfg body proc).1 = b) := by
  refine ⟨?_, ?_, ?_, rfl, ?_⟩
  · intro ht hp
    unfold StdioBridge.handle_request StdioBridge.timeoutSeconds
    rw [ht]
    dsimp only
    rw [hp]
  · intro ht hp
    unfold StdioBridge.handle_request StdioBridge.timeoutSeconds
    rw [ht]
    dsimp only
    rw [hp]
  · intro ht hp
    unfold StdioBridge.handle_request StdioBridge.timeoutSeconds
    rw [ht]
    dsimp only
    rw [hp]
  · intro body
    unfold StdioBridge.handle_request
    cases body with
    | error e => rfl
    | ok d =>
      dsimp only
      cases StdioBridge.timeoutSeconds cfg.timeout with
      | error e => rfl
      | ok secs =>
        dsimp only
        cases hp : proc d secs with
        | line content => cases content <;> rfl
        | timeout => rfl
        | ioFailure msg => rfl

/-- Witness for C4: the timeout case at the concrete configuration (30000 ms)
with a subprocess that never answers. -/
theorem C4_witness :
    StdioBridge.handle_request StdioBridge.init echoServerCfg (.ok Json.null)
      (fun _ _ => .timeout) =
      (StdioBridge.init,
       { status := 504, body := StdioBridge.errorBody (-32000) "Request timeout" }) :=
  (C4_handler_timeout_and_errors StdioBridge.init echoServerCfg Json.null
    (fun _ _ => .timeout) 30000 "unused").1 rfl rfl

/-! ## Claim C5 -/

/-- Claim C5: round-trip through the bridge — for the echo subprocess that
answers each stdin JSON-RPC line with `result` set to the request's
`params`, POSTing `{"jsonrpc":"2.0","id":1,"method":"x","params":{"a":1}}`
yields status 200 with body `{"jsonrpc":"2.0","id":1,"result":{"a":1}}`, the
request id preserved and the bridge state untouched. -/
theorem C5_round_trip :
    StdioBridge.handle_request StdioBridge.init echoServerCfg (.ok c5Request) echoProc =
      (StdioBridge.init, { status := 200, body := c5Response }) := rfl

/-! ## Claim C1 -/

/-- A successful handshake against the always-OK stub, whatever the client's
prior state. -/
theorem connect_alwaysOk (c : MCPClient) :
    (MCPClient.connect alwaysOkTransport c).2 = true ∧
    (MCPClient.connect alwaysOkTransport c).1.is_connected = true := by
  cases h : c.hasSession <;>
    simp [MCPClient.connect, MCPClient.sendRequest, MCPClient.recv, alwaysOkTransport, h,
      Json.truthyAndIn, Json.truthy, Json.pyIn, Json.pySubscript, Json.pyGet,
      MCPClient.clientInfoParams, List.lookup]

/-- Appending a fresh key keeps other keys absent. -/
theorem lookup_append_none {β : Type} (l : List (String × β)) (k id : String) (v : β)
    (h : l.lookup k = none) (hne : (k == id) = false) :
    (l ++ [(id, v)]).lookup k = none := by
  induction l with
  | nil => simp [List.lookup, hne]
  | cons p rest ih =>
    obtain ⟨k', v'⟩ := p
    by_cases hk : k = k'
    · subst hk
      simp [List.lookup] at h
    · have hbeq : (k == k') = false := by simpa using hk
      simp only [List.cons_append, List.lookup, hbeq] at h ⊢
      exact ih h

/-- `add_server` on an id already registered: rejected, state unchanged. -/
theorem add_server_reject_dup (t : Transport) (M : Nat) (m : MCPManager)
    (id e n : String) (h : (m.clients.lookup id).isSome = true) :
    MCPManager.add_server t M m id e n = (m, false) := by
  simp [MCPManager.add_server, h]

/-- `add_server` at (or beyond) capacity: rejected, state unchanged. -/
theorem add_server_reject_full (t : Transport) (M : Nat) (m : MCPManager)
    (id e n : String) (h : m.clients.lookup id = none) (hM : M ≤ m.clients.length) :
    MCPManager.add_server t M m id e n = (m, false) := by
  simp [MCPManager.add_server, h, hM]

/-- `add_server` below capacity on a fresh id with the always-OK stub:
accepted, the connected client appended. -/
theorem add_server_accept (M : Nat) (m : MCPManager)
    (id e n : String) (h : m.clients.lookup id = none) (hM : m.clients.length < M) :
    MCPManager.add_server alwaysOkTransport M m id e n =
      ({ clients := m.clients ++
          [(id, (MCPClient.connect alwaysOkTransport (MCPClient.init id e n)).1)] }, true) := by
  simp [MCPManager.add_server, h, Nat.not_le.mpr hM, (connect_alwaysOk _).1]

/-- Running a batch of fresh, distinct `add_server` calls with the always-OK
stub: exactly `min (batch size) (remaining capacity)` succeed, the rest are
rejected, and the map ends at `min (previous size + batch size) M`. -/
theorem addSequence_spec (M : Nat) (l : List String) : ∀ (m : MCPManager),
    l.Nodup → (∀ id ∈ l, m.clients.lookup id = none) → m.clients.length ≤ M →
    (addSequence alwaysOkTransport M m l).1.clients.length
        = min (m.clients.length + l.length) M ∧
    (addSequence alwaysOkTransport M m l).2.count true
        = min l.length (M - m.clients.length) ∧
    (addSequence alwaysOkTransport M m l).2.count false
        = l.length - min l.length (M - m.clients.length) := by
  induction l with
  | nil =>
    intro m _ _ hle
    simp [addSequence]
    omega
  | cons id rest ih =>
    intro m hnd hfresh hle
    have hid : m.clients.lookup id = none := hfresh id (by simp)
    by_cases hcap : M ≤ m.clients.length
    · have hstep := add_server_reject_full alwaysOkTransport M m id
        ("http://srv/" ++ id) id hid hcap
      have ihr := ih m (List.Nodup.of_cons hnd)
        (fun i hi => hfresh i (List.mem_cons_of_mem _ hi)) hle
      simp only [addSequence, hstep] at *
      rcases ihr with ⟨h1, h2, h3⟩
      refine ⟨by rw [h1]; omega, ?_, ?_⟩ <;>
        simp [List.count_cons, h2, h3] <;> omega
    · push_neg at hcap
      have hstep := add_server_accept M m id ("http://srv/" ++ id) id hid hcap
      set c' := (MCPClient.connect alwaysOkTransport
        (MCPClient.init id ("http://srv/" ++ id) id)).1 with hc'
      have hfresh' : ∀ i ∈ rest,
          (m.clients ++ [(id, c')]).lookup i = none := by
        intro i hi
        have hne : (i == id) = false := by
          have := (List.nodup_cons.mp hnd).1
          simp only [beq_eq_false_iff_ne, ne_eq]
          intro hEq
          exact this (hEq ▸ hi)
        exact lookup_append_none _ _ _ _ (hfresh i (List.mem_cons_of_mem _ hi)) hne
      have ihr := ih { clients := m.clients ++ [(id, c')] }
        (List.Nodup.of_cons hnd) hfresh' (by simp; omega)
      simp only [addSequence, hstep] at *
      rcases ihr with ⟨h1, h2, h3⟩
      refine ⟨?_, ?_, ?_⟩
      · rw [h1]; simp; omega
      · simp [List.count_cons, h2]; omega
      · simp [List.count_cons, h3]; omega

/-- Claim C1: `add_server` returns false without registering anything when
the id is already a key of the connection map or when the map is at the
configured maximum; the map never grows past the maximum; and (the lock
making each call atomic) any batch of 5 adds with distinct ids and the
always-succeeding stub transport, in any interleaving order, registers
exactly 3 and returns false for the other 2 under limit 3. -/
theorem C1_add_server_connection_limit (t : Transport) (M : Nat) (m : MCPManager)
    (id e n : String) :
    ((m.clients.lookup id).isSome = true →
      MCPManager.add_server t M m id e n = (m, false)) ∧
    (M ≤ m.clients.length → MCPManager.add_server t M m id e n = (m, false)) ∧
    (m.clients.length ≤ M → (MCPManager.add_server t M m id e n).1.clients.length ≤ M) ∧
    (∀ l : List String, l.Nodup → l.length = 5 →
      (addSequence alwaysOkTransport 3 MCPManager.init l).2.count true = 3 ∧
      (addSequence alwaysOkTransport 3 MCPManager.init l).2.count false = 2 ∧
      (addSequence alwaysOkTransport 3 MCPManager.init l).1.clients.length = 3) := by
  refine ⟨add_server_reject_dup t M m id e n, ?_, ?_, ?_⟩
  · intro hM
    cases hs : (m.clients.lookup id) with
    | none => exact add_server_reject_full t M m id e n hs hM
    | some c => exact add_server_reject_dup t M m id e n (by rw [hs]; rfl)
  · intro hle
    by_cases hs : (m.clients.lookup id).isSome = true
    · rw [add_server_reject_dup t M m id e n hs]
      exact hle
    · have hnone : m.clients.lookup id = none := by
        cases hL : m.clients.lookup id
        · rfl
        · rw [hL] at hs
          simp at hs
      by_cases hM : M ≤ m.clients.length
      · rw [add_server_reject_full t M m id e n hnone hM]
        exact hle
      · unfold MCPManager.add_server
        rw [hnone]
        simp only [Option.isSome_none, Bool.false_eq_true, if_false, hM, if_neg]
        cases hC : MCPClient.connect t (MCPClient.init id e n) with
        | mk c2 ok =>
          cases ok
          · simpa using hle
          · simp only []
            simp [List.length_append]
            omega
  · intro l hnd hlen
    obtain ⟨h1, h2, h3⟩ := addSequence_spec 3 l MCPManager.init hnd
      (fun i _ => rfl) (by simp [MCPManager.init])
    refine ⟨?_, ?_, ?_⟩
    · rw [h2, hlen]
      rfl
    · rw [h3, hlen]
      rfl
    · rw [h1, hlen]
      rfl

/-- Witness for C1: the concrete batch of five ids. -/
theorem C1_witness :
    (addSequence alwaysOkTransport 3 MCPManager.init fiveIds).2.count true = 3 ∧
    (addSequence alwaysOkTransport 3 MCPManager.init fiveIds).2.count false = 2 ∧
    (addSequence alwaysOkTransport 3 MCPManager.init fiveIds).1.clients.length = 3 :=
  (C1_add_server_connection_limit alwaysOkTransport 3 MCPManager.init "x" "y" "z").2.2.2
    fiveIds (by decide) (by decide)

/-! ## Claim C7 -/

/-- `recv` never replaces the client it is given. -/
theorem recv_fst (c : MCPClient) (o : SendOutcome) : (MCPClient.recv c o).1 = c := by
  cases o <;> rfl

/-- `_send_request` returns the client with only its id counter bumped: in
particular the `is_connected` flag survives every transport failure. -/
theorem sendRequest_is_connected (t : Transport) (c : MCPClient) (method : String)
    (params : Option Json) :
    (MCPClient.sendRequest t c method params).1.is_connected = c.is_connected := by
  unfold MCPClient.sendRequest
  dsimp only
  split
  · rw [recv_fst]
  · rfl

/-- `connect` either succeeds with the flag set, or fails leaving the flag
as it was or cleared by the `except` clause. -/
theorem connect_cases (t : Transport) (c : MCPClient) :
    ((MCPClient.connect t c).2 = true ∧ (MCPClient.connect t c).1.is_connected = true) ∨
    ((MCPClient.connect t c).2 = false ∧
      ((MCPClient.connect t c).1.is_connected = c.is_connected ∨
       (MCPClient.connect t c).1.is_connected = false)) := by
  unfold MCPClient.connect
  set c1 := if c.hasSession then c else { c with hasSession := true } with hc1
  have hc1conn : c1.is_connected = c.is_connected := by
    rw [hc1]
    split <;> rfl
  dsimp only
  cases hS : MCPClient.sendRequest t c1 "initialize" (some MCPClient.clientInfoParams) with
  | mk c2 resp =>
    have h2 : c2.is_connected = c.is_connected := by
      have hfst := congrArg Prod.fst hS
      simp only [] at hfst
      rw [← hfst, sendRequest_is_connected, hc1conn]
    dsimp only
    cases resp with
    | none => exact Or.inr ⟨rfl, Or.inl h2⟩
    | some r =>
      dsimp only
      cases hT : Json.truthyAndIn "result" r with
      | error e => exact Or.inr ⟨rfl, Or.inr rfl⟩
      | ok b =>
        cases b with
        | false => exact Or.inr ⟨rfl, Or.inl h2⟩
        | true =>
          dsimp only
          cases hP : r.pySubscript "result" with
          | error e => exact Or.inr ⟨rfl, Or.inr rfl⟩
          | ok rv =>
            dsimp only
            cases hG : rv.pyGet "capabilities" (Json.obj []) with
            | error e => exact Or.inr ⟨rfl, Or.inr rfl⟩
            | ok caps => exact Or.inl ⟨rfl, rfl⟩

/-- Claim C7 counterexample: a connected client whose transport fails at the
network level on a `tools/call` request keeps `is_connected = true` — the
transport error during a non-connect request does *not* reset the flag,
contradicting the claim that every transport error during any request does. -/
theorem C7_counterexample :
    (MCPClient.call_tool failingTransport connectedClient "toolA" (Json.obj [])).2 =
      .ok none ∧
    (MCPClient.call_tool failingTransport connectedClient "toolA" (Json.obj [])).1.is_connected
      = true :=
  ⟨rfl, rfl⟩

/-- Claim C7 (amended): `connected` transitions false→true only through a
successful initialize handshake inside `connect()` — `_send_request` itself
never changes the flag, so a transport failure during an ordinary request
leaves `connected` untouched (only a failure inside `connect()` clears it) —
and the object stays reusable: `connect()` against a well-behaved transport
succeeds and sets the flag, whatever the client's prior state. -/
theorem C7_connected_flag (t : Transport) (c : MCPClient)
    (method : String) (params : Option Json) :
    ((MCPClient.sendRequest t c method params).1.is_connected = c.is_connected) ∧
    (c.is_connected = false → (MCPClient.connect t c).1.is_connected = true →
      (MCPClient.connect t c).2 = true) ∧
    (∀ good : Transport,
      (∀ rq, good rq = SendOutcome.ok (Json.obj [("result", Json.obj [])])) →
      (MCPClient.connect good c).2 = true ∧
      (MCPClient.connect good c).1.is_connected = true) := by
  refine ⟨sendRequest_is_connected t c method params, ?_, ?_⟩
  · intro hF hC
    rcases connect_cases t c with ⟨h1, _⟩ | ⟨h1, h2 | h2⟩
    · exact h1
    · rw [h2, hF] at hC
      exact absurd hC (by simp)
    · rw [h2] at hC
      exact absurd hC (by simp)
  · intro good hg
    have hEq : good = alwaysOkTransport := funext hg
    rw [hEq]
    exact connect_alwaysOk c

/-- Witness for C7: a fresh client connecting over the always-OK stub. -/
theorem C7_witness :
    (MCPClient.connect alwaysOkTransport (MCPClient.init "w" "e" "w")).2 = true ∧
    (MCPClient.connect alwaysOkTransport (MCPClient.init "w" "e" "w")).1.is_connected = true :=
  (C7_connected_flag alwaysOkTransport (MCPClient.init "w" "e" "w") "ping" none).2.2
    alwaysOkTransport (fun _ => rfl)

/-! ## Claim C6 -/

/-- `recv` swallows every transport failure into `None`. -/
theorem recv_snd_none (c : MCPClient) (o : SendOutcome) (h : transportFails o = true) :
    (MCPClient.recv c o).2 = none := by
  cases o with
  | ok body => simp [transportFails] at h
  | badStatus code => rfl
  | timeout => rfl
  | netError msg => rfl

/-- A decoded response out of `recv` can only come from a 200 outcome. -/
theorem recv_snd_some (c : MCPClient) (o : SendOutcome) (r : Json)
    (h : (MCPClient.recv c o).2 = some r) : o = SendOutcome.ok r := by
  cases o with
  | ok body =>
    simp [MCPClient.recv] at h
    rw [h]
  | badStatus code => simp [MCPClient.recv] at h
  | timeout => simp [MCPClient.recv] at h
  | netError msg => simp [MCPClient.recv] at h

/-- Under a transport where every request fails, `_send_request` answers
`None`. -/
theorem sendRequest_none_of_fails (t : Transport) (c : MCPClient) (method : String)
    (params : Option Json) (ht : ∀ rq, transportFails (t rq) = true) :
    (MCPClient.sendRequest t c method params).2 = none := by
  unfold MCPClient.sendRequest
  dsimp only
  split
  · exact recv_snd_none _ _ (ht _)
  · rfl

/-- A decoded response out of `_send_request` exhibits a 200 outcome of the
transport. -/
theorem sendRequest_some (t : Transport) (c : MCPClient) (method : String)
    (params : Option Json) (r : Json)
    (h : (MCPClient.sendRequest t c method params).2 = some r) :
    ∃ rq, t rq = SendOutcome.ok r := by
  unfold MCPClient.sendRequest at h
  dsimp only at h
  split at h
  · exact ⟨_, recv_snd_some _ _ _ h⟩
  · simp at h

/-- `list_resources` over a failing transport returns the empty list — the
failure is swallowed, not raised. -/
theorem list_resources_transportFails (t : Transport) (c : MCPClient)
    (ht : ∀ rq, transportFails (t rq) = true) :
    (MCPClient.list_resources t c).2 = .ok (Json.arr []) := by
  unfold MCPClient.list_resources
  dsimp only
  cases hS : MCPClient.sendRequest t
      (if c.is_connected then c else (MCPClient.connect t c).1) "resources/list" none with
  | mk c2 resp =>
    have hr : resp = none := by
      have := sendRequest_none_of_fails t
        (if c.is_connected then c else (MCPClient.connect t c).1) "resources/list" none ht
      rw [hS] at this
      exact this
    subst hr
    rfl

/-- The `get_all_resources` loop over all-failing transports: every client
marked connected contributes an empty-list entry, the others none. -/
theorem getAllResourcesAux_fails (t : String → Transport)
    (ht : ∀ sid rq, transportFails (t sid rq) = true) :
    ∀ cs : List (String × MCPClient),
      (MCPManager.getAllResourcesAux t cs).2 =
        .ok ((cs.filter (fun p => p.2.is_connected)).map (fun p => (p.1, Json.arr []))) := by
  intro cs
  induction cs with
  | nil => rfl
  | cons p rest ih =>
    obtain ⟨sid, c⟩ := p
    by_cases hc : c.is_connected = true
    · unfold MCPManager.getAllResourcesAux
      rw [if_pos hc]
      cases hL : MCPClient.list_resources (t sid) c with
      | mk c' v =>
        have hv : v = .ok (Json.arr []) := by
          have := list_resources_transportFails (t sid) c (ht sid)
          rw [hL] at this
          exact this
        subst hv
        dsimp only
        cases hR : MCPManager.getAllResourcesAux t rest with
        | mk rest' res =>
          have hres : res = .ok ((rest.filter (fun p => p.2.is_connected)).map
              (fun p => (p.1, Json.arr []))) := by
            have := ih
            rw [hR] at this
            exact this
          subst hres
          simp [List.filter_cons, hc]
    · unfold MCPManager.getAllResourcesAux
      rw [if_neg hc]
      cases hR : MCPManager.getAllResourcesAux t rest with
      | mk rest' res =>
        have hres : res = .ok ((rest.filter (fun p => p.2.is_connected)).map
            (fun p => (p.1, Json.arr []))) := by
          have := ih
          rw [hR] at this
          exact this
        subst hres
        simp [List.filter_cons, hc]

/-- Claim C6 counterexample: a manager with one connected server whose every
request fails at the transport level — `get_all_resources` returns a mapping
that *does* contain an entry for the failed server, with an empty list
silently substituted, contradicting the claim that an erroring server
contributes no entry at all. -/
theorem C6_counterexample :
    (MCPManager.get_all_resources (fun _ => failingTransport) c6Manager).2 =
      .ok [("s1", Json.arr [])] :=
  rfl

/-- Claim C6 (amended): `get_all_resources` queries `list_resources` on every
client whose connected flag is set — and when the per-server transports fail,
each such server contributes an entry with an empty list (the failure is
swallowed inside `list_resources`, not surfaced by dropping the entry), while
clients not marked connected contribute no entry; sibling servers are
unaffected (all of them keep their entries). -/
theorem C6_amended (t : String → Transport) (m : MCPManager)
    (ht : ∀ sid rq, transportFails (t sid rq) = true) :
    (MCPManager.get_all_resources t m).2 =
      .ok ((m.clients.filter (fun p => p.2.is_connected)).map
        (fun p => (p.1, Json.arr []))) := by
  unfold MCPManager.get_all_resources
  cases hA : MCPManager.getAllResourcesAux t m.clients with
  | mk cs r =>
    have := getAllResourcesAux_fails t ht m.clients
    rw [hA] at this
    exact this

/-- Witness for C6 (amended) at the concrete one-server manager. -/
theorem C6_witness :
    (MCPManager.get_all_resources (fun _ => failingTransport) c6Manager).2 =
      .ok ((c6Manager.clients.filter (fun p => p.2.is_connected)).map
        (fun p => (p.1, Json.arr []))) :=
  C6_amended (fun _ => failingTransport) c6Manager (fun _ _ => rfl)

/-! ## Claim C10 -/

/-- A soft failure makes the `response and "result" in response` test come
out false without raising. -/
theorem truthyAndIn_of_failsSoftly (r : Json) (h : failsSoftly (SendOutcome.ok r) = true) :
    Json.truthyAndIn "result" r = .ok false := by
  cases r with
  | null => rfl
  | bool b =>
    simp [failsSoftly, Json.truthy, Json.isObj] at h
    simp [Json.truthyAndIn, Json.truthy, h]
  | num n =>
    simp [failsSoftly, Json.truthy, Json.isObj] at h
    simp [Json.truthyAndIn, Json.truthy, h]
  | str s =>
    simp [failsSoftly, Json.truthy, Json.isObj] at h
    simp [Json.truthyAndIn, Json.truthy, h]
  | arr xs =>
    simp [failsSoftly, Json.truthy, Json.isObj] at h
    simp [Json.truthyAndIn, Json.truthy, h]
  | obj fs =>
    simp [failsSoftly, Json.truthy, Json.isObj, Json.get?] at h
    rcases h with h | h
    · simp [Json.truthyAndIn, Json.truthy, h]
    · by_cases he : fs.isEmpty
      · simp [Json.truthyAndIn, Json.truthy, he]
      · simp [Json.truthyAndIn, Json.truthy, he, Json.pyIn]
        exact h

/-- `call_tool` over a transport whose every outcome fails softly returns
`None` without raising. -/
theorem call_tool_failsSoftly (t : Transport) (c : MCPClient) (tool : String) (args : Json)
    (ht : ∀ rq, failsSoftly (t rq) = true) :
    (MCPClient.call_tool t c tool args).2 = .ok none := by
  unfold MCPClient.call_tool
  dsimp only
  cases hS : MCPClient.sendRequest t (if c.is_connected then c else (MCPClient.connect t c).1)
      "tools/call" (some (Json.obj [("name", Json.str tool),
        ("arguments", if args.truthy then args else Json.obj [])])) with
  | mk c2 resp =>
    dsimp only
    cases resp with
    | none => rfl
    | some r =>
      dsimp only
      have hr : failsSoftly (SendOutcome.ok r) = true := by
        obtain ⟨rq, hrq⟩ := sendRequest_some t _ _ _ r (by rw [hS])
        have := ht rq
        rw [hrq] at this
        exact this
      rw [truthyAndIn_of_failsSoftly r hr]

/-- Claim C10: for a registered server id, every transport-level failure of
the `tools/call` request — network error, timeout, non-200 status, or a
response with no `"result"` key — makes `execute_tool` report
`{"success": True, "result": None}` rather than a failure dict: `call_tool`
and `_send_request` swallow such failures into `None` internally, so
`execute_tool`'s exception branch is never reached by them. -/
theorem C10_transport_failures_masked (t : Transport) (m : MCPManager)
    (server_id tool_name : String) (args : Json) (c : MCPClient)
    (hc : m.clients.lookup server_id = some c)
    (ht : ∀ rq, failsSoftly (t rq) = true) :
    (MCPManager.execute_tool t m server_id tool_name args).2 = ExecResult.success none := by
  unfold MCPManager.execute_tool
  rw [hc]
  dsimp only
  cases hCT : MCPClient.call_tool t
      (if c.is_connected then c else (MCPClient.connect t c).1) tool_name args with
  | mk c2 r =>
    have hr : r = .ok none := by
      have := call_tool_failsSoftly t
        (if c.is_connected then c else (MCPClient.connect t c).1) tool_name args ht
      rw [hCT] at this
      exact this
    subst hr
    rfl

/-- Witness for C10: the registered connected server with the all-failing
transport. -/
theorem C10_witness :
    (MCPManager.execute_tool failingTransport c6Manager "s1" "toolA" (Json.obj [])).2 =
      ExecResult.success none :=
  C10_transport_failures_masked failingTransport c6Manager "s1" "toolA" (Json.obj [])
    connectedClient rfl (fun _ => rfl)

/-! ## Claim C8 -/

/-- `from_dict` returns normally exactly on dict entries. -/
theorem from_dict_ok_iff_obj (name : String) (cfg : Json) :
    exceptOk (AWSQMCPServerConfig.from_dict name cfg) = cfg.isObj := by
  cases cfg <;> rfl

/-- Inserting a fresh key into a Python dict appends it. -/
theorem pyDictInsert_fresh {α : Type} (l : List (String × α)) (k : String) (v : α)
    (h : l.lookup k = none) : pyDictInsert l k v = l ++ [(k, v)] := by
  induction l with
  | nil => rfl
  | cons p rest ih =>
    obtain ⟨k', v'⟩ := p
    by_cases hk : k' = k
    · subst hk
      simp [List.lookup] at h
    · have hbeq : (k' == k) = false := by simpa using hk
      have hbeq' : (k == k') = false := by simpa using (Ne.symm hk)
      simp only [pyDictInsert, hbeq]
      rw [if_neg (by simp)]
      simp only [List.lookup, hbeq'] at h
      rw [List.cons_append, ih h]

/-- The extraction loop over entries with unique names collects exactly the
well-formed ones, in order, after whatever is already accumulated. -/
theorem extractLoop_append (entries : List (String × Json)) :
    ∀ acc : List (String × AWSQMCPServerConfig),
      (entries.map Prod.fst).Nodup →
      (∀ k ∈ entries.map Prod.fst, acc.lookup k = none) →
      AWSQConfigLoader.extractLoop entries acc =
        acc ++ entries.filterMap wellFormedEntry := by
  induction entries with
  | nil =>
    intro acc _ _
    simp [AWSQConfigLoader.extractLoop]
  | cons p rest ih =>
    intro acc hnd hfresh
    obtain ⟨n, sc⟩ := p
    simp only [List.map_cons, List.nodup_cons] at hnd
    dsimp [AWSQConfigLoader.extractLoop]
    cases hfd : AWSQMCPServerConfig.from_dict n sc with
    | ok d =>
      dsimp only
      rw [pyDictInsert_fresh acc n d (hfresh n (by simp))]
      rw [ih (acc ++ [(n, d)]) hnd.2 ?fresh]
      · simp [List.filterMap_cons, wellFormedEntry, hfd]
      case fresh =>
        intro k hk
        apply lookup_append_none
        · exact hfresh k (by rw [List.map_cons]; exact List.mem_cons_of_mem _ hk)
        · simp only [beq_eq_false_iff_ne, ne_eq]
          intro hEq
          exact hnd.1 (hEq ▸ hk)
    | error e =>
      dsimp only
      rw [ih acc hnd.2 (fun k hk =>
        hfresh k (by rw [List.map_cons]; exact List.mem_cons_of_mem _ hk))]
      simp [List.filterMap_cons, wellFormedEntry, hfd]

/-- Each entry lands on exactly one side: kept if a dict, skipped if not. -/
theorem filterMap_wellFormed_count (entries : List (String × Json)) :
    (entries.filterMap wellFormedEntry).length +
      (entries.filter (fun p => !p.2.isObj)).length = entries.length := by
  induction entries with
  | nil => rfl
  | cons p rest ih =>
    obtain ⟨n, sc⟩ := p
    have hok := from_dict_ok_iff_obj n sc
    cases hfd : AWSQMCPServerConfig.from_dict n sc with
    | ok d =>
      rw [hfd] at hok
      simp only [exceptOk] at hok
      simp [List.filterMap_cons, List.filter_cons, wellFormedEntry, hfd, ← hok]
      omega
    | error e =>
      rw [hfd] at hok
      simp only [exceptOk] at hok
      simp [List.filterMap_cons, List.filter_cons, wellFormedEntry, hfd, ← hok]
      omega

/-- `config.get("type") == "http"` holds exactly when the entry's `type`
field is the string `"http"`. -/
theorem eqStr_http_iff (fs' : List (String × Json)) :
    (lookupD fs' "type" Json.null).eqStr "http" = true ↔
      fs'.lookup "type" = some (Json.str "http") := by
  unfold lookupD
  cases hL : fs'.lookup "type" with
  | none => simp [Json.eqStr]
  | some v => cases v <;> simp [Json.eqStr]

/-- Claim C8: `extract_mcp_servers` yields exactly the well-formed entries of
the `mcpServers` object — each entry that fails to parse is skipped without
discarding siblings, so the count is the total minus the number of malformed
(non-dict) entries, invariant under reordering — and a produced descriptor
has HTTP transport iff the entry's `type` field equals `"http"`, defaulting
to STDIO otherwise. -/
theorem C8_extract_wellformed (fs entries : List (String × Json))
    (name : String) (cfg : Json) (d : AWSQMCPServerConfig) :
    (fs.lookup "mcpServers" = some (Json.obj entries) →
      (entries.map Prod.fst).Nodup →
      AWSQConfigLoader.extract_mcp_servers (Json.obj fs) =
        .ok (entries.filterMap wellFormedEntry)) ∧
    ((entries.filterMap wellFormedEntry).length +
        (entries.filter (fun p => !p.2.isObj)).length = entries.length) ∧
    (∀ entries' : List (String × Json), entries.Perm entries' →
      (entries.filterMap wellFormedEntry).length =
        (entries'.filterMap wellFormedEntry).length) ∧
    (AWSQMCPServerConfig.from_dict name cfg = .ok d →
      (d.transport_type = MCPTransportType.http ↔
        cfg.get? "type" = some (Json.str "http"))) := by
  refine ⟨?_, filterMap_wellFormed_count entries, ?_, ?_⟩
  · intro hm hnd
    unfold AWSQConfigLoader.extract_mcp_servers
    simp only [Json.pyIn, hm, Option.isSome_some, Json.pySubscript]
    rw [extractLoop_append entries [] hnd (fun k _ => rfl)]
    simp
  · intro entries' hp
    exact (hp.filterMap wellFormedEntry).length_eq
  · intro hfd
    cases cfg with
    | obj fs' =>
      simp only [AWSQMCPServerConfig.from_dict, Except.ok.injEq] at hfd
      subst hfd
      dsimp only
      by_cases hT : (lookupD fs' "type" Json.null).eqStr "http" = true
      · rw [if_pos hT]
        simp only [Json.get?]
        constructor
        · intro _
          exact (eqStr_http_iff fs').mp hT
        · intro _
          trivial
      · rw [if_neg hT]
        simp only [Json.get?]
        apply iff_of_false
        · exact fun h => MCPTransportType.noConfusion h
        · intro hL
          exact hT ((eqStr_http_iff fs').mpr hL)
    | null => simp [AWSQMCPServerConfig.from_dict] at hfd
    | bool b => simp [AWSQMCPServerConfig.from_dict] at hfd
    | num n => simp [AWSQMCPServerConfig.from_dict] at hfd
    | str s => simp [AWSQMCPServerConfig.from_dict] at hfd
    | arr xs => simp [AWSQMCPServerConfig.from_dict] at hfd

/-- Witness for C8: the concrete file with one malformed entry yields exactly
its two well-formed entries. -/
theorem C8_witness :
    AWSQConfigLoader.extract_mcp_servers (Json.obj c8Config) =
      .ok (c8Entries.filterMap wellFormedEntry) :=
  (C8_extract_wellformed c8Config c8Entries "x" Json.null echoServerCfg).1 rfl (by decide)
